import Mathlib

/-!
Shallow embedding of the core of the `steer_intent_backtester` CLMM backtester
(`steerbt/uv3_math.py`, `steerbt/curves.py`, `steerbt/triggers.py`,
`steerbt/portfolio.py`, `steerbt/strategies/base.py`,
`steerbt/strategies/classic.py`, `steerbt/backtester.py`), together with
theorems settling the specification claims about it.

Modelling conventions:
* Python floats are modelled as exact real (`ℝ`) or rational (`ℚ`) arithmetic;
  Python `int(x)` (truncation toward zero) is modelled by `ratTrunc` / floors
  (the truncated quantities in this development are nonnegative where it
  matters, so floor agrees with truncation there).
* The integer X96 computations of `uv3_math.py` use exact rational arithmetic
  internally (the Python code divides integers with `/`, producing floats);
  they are embedded as computable functions on `ℤ`.
* `np.sqrt` is modelled as `Real.sqrt`.
* Curve objects are constructed with their default `mirror=False`,
  `invert=False`, so `_apply_transforms` is the identity and is omitted.
-/

namespace SteerBT

/-- Python `int(x)`: truncation toward zero, on an exact rational. -/
def ratTrunc (q : ℚ) : ℤ :=
  if 0 ≤ q then ⌊q⌋ else ⌈q⌉

/-- `Q96 = 2**96` from `uv3_math.py`. -/
def Q96 : ℤ := 2 ^ 96

/-- `get_amount0_for_liquidity(sqrt_price_a_x96, sqrt_price_b_x96, liquidity)`
from `uv3_math.py`: sorts the bounds, returns `0` on a zero-width range, else
`int(liquidity * (diff/Q96) / ((a/Q96) * (b/Q96)))` computed in exact
arithmetic. -/
def get_amount0_for_liquidity (sqrtPriceAX96 sqrtPriceBX96 liquidity : ℤ) : ℤ :=
  let a := if sqrtPriceAX96 > sqrtPriceBX96 then sqrtPriceBX96 else sqrtPriceAX96
  let b := if sqrtPriceAX96 > sqrtPriceBX96 then sqrtPriceAX96 else sqrtPriceBX96
  let diff := b - a
  if diff = 0 then 0
  else
    ratTrunc ((liquidity : ℚ) * ((diff : ℚ) / (Q96 : ℚ)) /
      (((a : ℚ) / (Q96 : ℚ)) * ((b : ℚ) / (Q96 : ℚ))))

/-- `get_amount1_for_liquidity` from `uv3_math.py`. -/
def get_amount1_for_liquidity (sqrtPriceAX96 sqrtPriceBX96 liquidity : ℤ) : ℤ :=
  let a := if sqrtPriceAX96 > sqrtPriceBX96 then sqrtPriceBX96 else sqrtPriceAX96
  let b := if sqrtPriceAX96 > sqrtPriceBX96 then sqrtPriceAX96 else sqrtPriceBX96
  let diff := b - a
  if diff = 0 then 0
  else ratTrunc ((liquidity : ℚ) * ((diff : ℚ) / (Q96 : ℚ)))

/-- `get_liquidity_for_amount0` from `uv3_math.py`. -/
def get_liquidity_for_amount0 (sqrtPriceAX96 sqrtPriceBX96 amount0 : ℤ) : ℤ :=
  let a := if sqrtPriceAX96 > sqrtPriceBX96 then sqrtPriceBX96 else sqrtPriceAX96
  let b := if sqrtPriceAX96 > sqrtPriceBX96 then sqrtPriceAX96 else sqrtPriceBX96
  let diff := b - a
  if diff = 0 then 0
  else
    ratTrunc (((amount0 : ℚ) * ((a : ℚ) / (Q96 : ℚ)) * ((b : ℚ) / (Q96 : ℚ))) /
      ((diff : ℚ) / (Q96 : ℚ)))

/-- `get_liquidity_for_amount1` from `uv3_math.py`. -/
def get_liquidity_for_amount1 (sqrtPriceAX96 sqrtPriceBX96 amount1 : ℤ) : ℤ :=
  let a := if sqrtPriceAX96 > sqrtPriceBX96 then sqrtPriceBX96 else sqrtPriceAX96
  let b := if sqrtPriceAX96 > sqrtPriceBX96 then sqrtPriceAX96 else sqrtPriceBX96
  let diff := b - a
  if diff = 0 then 0
  else ratTrunc ((amount1 : ℚ) / ((diff : ℚ) / (Q96 : ℚ)))

/-- `get_amounts_for_liquidity` from `uv3_math.py`: three-way branch on the
current sqrt price against the (sorted) range bounds. -/
def get_amounts_for_liquidity (sqrtPriceX96 sqrtPriceAX96 sqrtPriceBX96 liquidity : ℤ) :
    ℤ × ℤ :=
  let a := if sqrtPriceAX96 > sqrtPriceBX96 then sqrtPriceBX96 else sqrtPriceAX96
  let b := if sqrtPriceAX96 > sqrtPriceBX96 then sqrtPriceAX96 else sqrtPriceBX96
  if sqrtPriceX96 ≤ a then
    (get_amount0_for_liquidity a b liquidity, 0)
  else if sqrtPriceX96 ≥ b then
    (0, get_amount1_for_liquidity a b liquidity)
  else
    (get_amount0_for_liquidity sqrtPriceX96 b liquidity,
     get_amount1_for_liquidity a sqrtPriceX96 liquidity)

/-- Python `int(x)` on a real number: truncation toward zero. -/
noncomputable def realTrunc (x : ℝ) : ℤ :=
  if 0 ≤ x then ⌊x⌋ else ⌈x⌉

/-- `price_to_sqrt_price_x96(price)` from `uv3_math.py`:
`int(np.sqrt(price) * Q96)`.  `np.sqrt` is modelled as `Real.sqrt`; the
argument of `int` is nonnegative, so truncation is the floor. -/
noncomputable def price_to_sqrt_price_x96 (price : ℝ) : ℤ :=
  ⌊Real.sqrt price * (Q96 : ℝ)⌋

/-- `sqrt_price_x96_to_price(sqrt_price_x96)` from `uv3_math.py`:
`(sqrt_price_x96 / Q96) ** 2`. -/
noncomputable def sqrt_price_x96_to_price (sqrtPriceX96 : ℤ) : ℝ :=
  ((sqrtPriceX96 : ℝ) / (Q96 : ℝ)) ^ 2

/-- `calculate_position_value(price, lower_price, upper_price, liquidity)`
from `uv3_math.py`: converts to X96, computes the integer amounts, rescales by
`Q96` and values the position at `amount0 * price + amount1`. -/
noncomputable def calculate_position_value (price lowerPrice upperPrice liquidity : ℝ) :
    ℝ × ℝ × ℝ :=
  let sqrtPriceX96 := price_to_sqrt_price_x96 price
  let sqrtLowerX96 := price_to_sqrt_price_x96 lowerPrice
  let sqrtUpperX96 := price_to_sqrt_price_x96 upperPrice
  let amounts := get_amounts_for_liquidity sqrtPriceX96 sqrtLowerX96 sqrtUpperX96
    (realTrunc liquidity)
  let amount0Decimal : ℝ := (amounts.1 : ℝ) / (Q96 : ℝ)
  let amount1Decimal : ℝ := (amounts.2 : ℝ) / (Q96 : ℝ)
  (amount0Decimal, amount1Decimal, amount0Decimal * price + amount1Decimal)

/-- A CLMM `Position` from `portfolio.py` (the `created_at` /
`last_rebalance_at` timestamps play no role in any claim and are omitted). -/
structure Position where
  lowerPrice : ℝ
  upperPrice : ℝ
  liquidity : ℝ
  feeTierBps : ℤ := 500
  feesEarned : ℝ := 0

/-- `Position.get_value(current_price)`: delegates to
`calculate_position_value`. -/
noncomputable def Position.getValue (pos : Position) (currentPrice : ℝ) : ℝ × ℝ × ℝ :=
  calculate_position_value currentPrice pos.lowerPrice pos.upperPrice pos.liquidity

/-- One entry of `Portfolio.transaction_history` (the wall-clock timestamp is
omitted; a rebalance record carries its cost and position count). -/
structure Transaction where
  cost : ℝ
  positionsCount : ℕ

/-- The `Portfolio` state from `portfolio.py`. -/
structure Portfolio where
  initialCash : ℝ := 10000
  cash : ℝ
  feeBps : ℝ := 5
  slippageBps : ℝ := 1
  gasCost : ℝ := 0
  positions : List Position := []
  transactionHistory : List Transaction := []
  totalFeesPaid : ℝ := 0
  totalGasPaid : ℝ := 0
  totalSlippage : ℝ := 0
  rebalanceCount : ℕ := 0

/-- `Portfolio.get_total_value(current_price)`: cash plus, for every position,
its value at the current price plus its accrued fees. -/
noncomputable def Portfolio.getTotalValue (p : Portfolio) (currentPrice : ℝ) : ℝ :=
  p.cash + (p.positions.map
    (fun pos => (pos.getValue currentPrice).2.2 + pos.feesEarned)).sum

/-- `Portfolio.rebalance_positions(new_ranges, new_liquidities, current_price)`
from `portfolio.py`, as a pure state transformer.  Mirrors the source order:
raise `ValueError` on a length mismatch; credit every current position's value
plus fees to cash; clear the positions; open one new position per pair and sum
the per-position trading-fee cost `value * fee_bps / 10000`; debit cash by that
fee cost; afterwards add the gas cost (when positive) to the returned total
cost and to `total_gas_paid` — the gas cost is not debited from cash; append a
transaction record; increment `rebalance_count`; add the total cost to
`total_fees_paid`; return the total cost. -/
noncomputable def Portfolio.rebalancePositions (p : Portfolio)
    (newRanges : List (ℝ × ℝ)) (newLiquidities : List ℝ) (currentPrice : ℝ) :
    Except String (Portfolio × ℝ) :=
  if newRanges.length ≠ newLiquidities.length then
    .error "Number of ranges must match number of liquidities"
  else
    let creditedCash := p.cash + (p.positions.map
      (fun pos => (pos.getValue currentPrice).2.2 + pos.feesEarned)).sum
    let newPositions := (newRanges.zip newLiquidities).map
      (fun rl => { lowerPrice := rl.1.1, upperPrice := rl.1.2, liquidity := rl.2 : Position })
    let feeCost := (newPositions.map
      (fun pos => (pos.getValue currentPrice).2.2 * (p.feeBps / 10000))).sum
    let cashAfter := creditedCash - feeCost
    let totalCost := if p.gasCost > 0 then feeCost + p.gasCost else feeCost
    let totalGasPaid' := if p.gasCost > 0 then p.totalGasPaid + p.gasCost else p.totalGasPaid
    .ok ({ p with
            cash := cashAfter
            positions := newPositions
            transactionHistory := p.transactionHistory ++
              [{ cost := totalCost, positionsCount := newPositions.length }]
            totalGasPaid := totalGasPaid'
            rebalanceCount := p.rebalanceCount + 1
            totalFeesPaid := p.totalFeesPaid + totalCost }, totalCost)

/-- The `BaselinePortfolio` from `portfolio.py` (HODL 50:50 / single-asset
baselines).  All arithmetic is rational. -/
structure BaselinePortfolio where
  initialCash : ℚ := 10000
  cash : ℚ
  strategy : String := "hodl_50_50"
  amount0 : ℚ := 0
  amount1 : ℚ := 0

/-- `BaselinePortfolio.initialize_position(initial_price)`. -/
def BaselinePortfolio.initializePosition (b : BaselinePortfolio) (initialPrice : ℚ) :
    BaselinePortfolio :=
  if b.strategy = "hodl_50_50" then
    { b with amount0 := (b.cash / 2) / initialPrice, amount1 := b.cash / 2, cash := 0 }
  else if b.strategy = "single_asset" then
    { b with amount0 := b.cash / initialPrice, amount1 := 0, cash := 0 }
  else b

/-- `BaselinePortfolio.get_value(current_price)`:
`amount0 * current_price + amount1 + cash`. -/
def BaselinePortfolio.getValue (b : BaselinePortfolio) (currentPrice : ℚ) : ℚ :=
  b.amount0 * currentPrice + b.amount1 + b.cash

/-- `BaselinePortfolio.rebalance_to_50_50(current_price)`: a no-op unless the
strategy string is `"hodl_50_50"`; otherwise sets
`amount0 := total/(2*price)`, `amount1 := total/2` where `total` is the
current `get_value` — the `cash` field is left untouched. -/
def BaselinePortfolio.rebalanceTo5050 (b : BaselinePortfolio) (currentPrice : ℚ) :
    BaselinePortfolio :=
  if b.strategy ≠ "hodl_50_50" then b
  else
    let totalValue := b.getValue currentPrice
    { b with amount0 := totalValue / (2 * currentPrice), amount1 := totalValue / 2 }

/-- `CurveBase.generate_distribution`'s budget scaling from `curves.py`:
`scaled = max(total_liquidity * liquidity_scale, 100.0)`. -/
def scaledLiquidity (liquidityScale totalLiquidity : ℚ) : ℚ :=
  max (totalLiquidity * liquidityScale) 100

/-- The adaptive bin count shared by every curve variant in `curves.py`:
`max(min_bins, min(max_bins, int(width_pct / 2)))`. -/
def curveBinCount (maxBins minBins : ℕ) (widthPct : ℚ) : ℕ :=
  max minBins (min maxBins (ratTrunc (widthPct / 2)).toNat)

/-- The bin grid shared by every curve variant in `curves.py`: pairs of
consecutive entries of `np.linspace(center - width/2, center + width/2,
bin_count + 1)` with the per-bin liquidity. -/
def curveBins (n : ℕ) (a step : ℚ) (liq : ℕ → ℚ) : List (ℚ × ℚ × ℚ) :=
  (List.range n).map fun (i : ℕ) => (a + step * (i : ℚ), a + step * ((i : ℚ) + 1), liq i)

/-- `UniformCurve._generate_distribution_impl`, composed with the budget
scaling of `CurveBase.generate_distribution` (default
`liquidity_scale = 0.001`, `mirror = invert = False`). -/
def uniformGenerateDistribution (maxBins : ℕ) (liquidityScale : ℚ)
    (centerPrice widthPct totalLiquidity : ℚ) : List (ℚ × ℚ × ℚ) :=
  let scaled := scaledLiquidity liquidityScale totalLiquidity
  let width := centerPrice * widthPct / 100
  let n := curveBinCount maxBins 2 widthPct
  curveBins n (centerPrice - width / 2) (width / n) (fun _ => scaled / n)

/-- `LinearCurve._generate_distribution_impl` composed with the budget
scaling: per-bin weight `1 - distance_from_center * slope`, floored at
one tenth of the equal share. -/
def linearGenerateDistribution (maxBins : ℕ) (liquidityScale slope : ℚ)
    (centerPrice widthPct totalLiquidity : ℚ) : List (ℚ × ℚ × ℚ) :=
  let scaled := scaledLiquidity liquidityScale totalLiquidity
  let width := centerPrice * widthPct / 100
  let n := curveBinCount maxBins 2 widthPct
  curveBins n (centerPrice - width / 2) (width / n) (fun i =>
    let distanceFromCenter := |(i : ℚ) - (n : ℚ) / 2| / ((n : ℚ) / 2)
    max (scaled / n * (1 - distanceFromCenter * slope)) (scaled / n * (1 / 10)))

/-- `GaussianCurve._generate_distribution_impl` composed with the budget
scaling.  `np.exp` is transcendental; it enters the per-bin weight only, and
is abstracted as the parameter `gexp` — every stated property holds for every
`gexp`. -/
def gaussianGenerateDistribution (gexp : ℚ → ℚ) (maxBins : ℕ)
    (liquidityScale stdDev : ℚ) (centerPrice widthPct totalLiquidity : ℚ) :
    List (ℚ × ℚ × ℚ) :=
  let scaled := scaledLiquidity liquidityScale totalLiquidity
  let width := centerPrice * widthPct / 100
  let n := curveBinCount maxBins 3 widthPct
  curveBins n (centerPrice - width / 2) (width / n) (fun i =>
    let distance := ((i : ℚ) - (n : ℚ) / 2) / ((n : ℚ) / 2)
    let gaussian := gexp (-(1 / 2) * (distance / stdDev) ^ 2)
    max (scaled / n * gaussian) (scaled / n * (1 / 20)))

/-- `SigmoidCurve._generate_distribution_impl` composed with the budget
scaling, with `np.exp` abstracted as `gexp`. -/
def sigmoidGenerateDistribution (gexp : ℚ → ℚ) (maxBins : ℕ)
    (liquidityScale k : ℚ) (centerPrice widthPct totalLiquidity : ℚ) :
    List (ℚ × ℚ × ℚ) :=
  let scaled := scaledLiquidity liquidityScale totalLiquidity
  let width := centerPrice * widthPct / 100
  let n := curveBinCount maxBins 3 widthPct
  curveBins n (centerPrice - width / 2) (width / n) (fun i =>
    let x := ((i : ℚ) - (n : ℚ) / 2) / ((n : ℚ) / 2) * 2
    let sigmoid := 1 / (1 + gexp (-k * x))
    max (scaled / n * sigmoid) (scaled / n * (1 / 10)))

/-- `LogarithmicCurve._generate_distribution_impl` composed with the budget
scaling, with `np.log` abstracted as `glog`. -/
def logarithmicGenerateDistribution (glog : ℚ → ℚ) (maxBins : ℕ)
    (liquidityScale logBase : ℚ) (centerPrice widthPct totalLiquidity : ℚ) :
    List (ℚ × ℚ × ℚ) :=
  let scaled := scaledLiquidity liquidityScale totalLiquidity
  let width := centerPrice * widthPct / 100
  let n := curveBinCount maxBins 3 widthPct
  curveBins n (centerPrice - width / 2) (width / n) (fun i =>
    let logFactor := glog (1 + (i : ℚ) + 1) / glog logBase
    max (scaled / n * logFactor) (scaled / n * (1 / 10)))

/-- `BidAskCurve._generate_distribution_impl` composed with the budget
scaling, with `np.exp` abstracted as `gexp`. -/
def bidAskGenerateDistribution (gexp : ℚ → ℚ) (maxBins : ℕ)
    (liquidityScale peakSeparation peakWidth : ℚ)
    (centerPrice widthPct totalLiquidity : ℚ) : List (ℚ × ℚ × ℚ) :=
  let scaled := scaledLiquidity liquidityScale totalLiquidity
  let width := centerPrice * widthPct / 100
  let n := curveBinCount maxBins 5 widthPct
  curveBins n (centerPrice - width / 2) (width / n) (fun i =>
    let price := centerPrice - width / 2 + width / n * i
    let peak1 := centerPrice - peakSeparation * centerPrice / 2
    let peak2 := centerPrice + peakSeparation * centerPrice / 2
    let dist1 := |price - peak1| / (peakWidth * centerPrice)
    let dist2 := |price - peak2| / (peakWidth * centerPrice)
    let gaussian1 := gexp (-(1 / 2) * dist1 ^ 2)
    let gaussian2 := gexp (-(1 / 2) * dist2 ^ 2)
    let combined := (gaussian1 + gaussian2) / 2
    max (scaled / n * combined) (scaled / n * (1 / 20)))

/-- Sum of the per-bin liquidities of a generated distribution. -/
def binsLiquiditySum (bins : List (ℚ × ℚ × ℚ)) : ℚ :=
  (bins.map (fun b => b.2.2)).sum

/-- Well-formedness of a generated distribution: exactly `n` bins; the first
bin starts at `lo` and the last ends at `hi`; consecutive bins are contiguous;
every bin has positive width (so bins are ordered and non-overlapping); and
every bin's liquidity is positive. -/
def curveDistributionOK (bins : List (ℚ × ℚ × ℚ)) (n : ℕ) (lo hi : ℚ) : Prop :=
  0 < n ∧
  bins.length = n ∧
  (∀ i (h : i < bins.length), i = 0 → (bins.get ⟨i, h⟩).1 = lo) ∧
  (∀ i (h : i < bins.length), i = n - 1 → (bins.get ⟨i, h⟩).2.1 = hi) ∧
  (∀ i (h1 : i < bins.length) (h2 : i + 1 < bins.length),
    (bins.get ⟨i, h1⟩).2.1 = (bins.get ⟨i + 1, h2⟩).1) ∧
  (∀ i (h : i < bins.length), (bins.get ⟨i, h⟩).1 < (bins.get ⟨i, h⟩).2.1) ∧
  (∀ b ∈ bins, 0 < b.2.2)

/-- The trigger-relevant fields of the `current_state` dict passed to
`should_trigger` in `triggers.py` (timestamps are modelled as rationals). -/
structure TriggerInput where
  currentPrice : ℚ
  positionCenter : ℚ
  lowerPrice : ℚ
  upperPrice : ℚ
  positionValue : ℚ
  currentTimestamp : ℚ

/-- `GapFromCenterTrigger.should_trigger`: with `gap_bps` set, fires when
`abs(price - center) / center * 10000 >= gap_bps`; otherwise uses the tick
approximation `abs(price - center) >= gap_ticks * 0.0001`.  It reads no
mutable trigger state. -/
def gapFromCenterShouldTrigger (gapTicks : ℚ) (gapBps : Option ℚ)
    (inp : TriggerInput) : Bool :=
  match gapBps with
  | some g =>
      |inp.currentPrice - inp.positionCenter| / inp.positionCenter * 10000 ≥ g
  | none => |inp.currentPrice - inp.positionCenter| ≥ gapTicks * (1 / 10000)

/-- `RangeInactiveTrigger.should_trigger`: fires when the price is outside the
position range.  It reads no mutable trigger state. -/
def rangeInactiveShouldTrigger (inp : TriggerInput) : Bool :=
  inp.currentPrice < inp.lowerPrice || inp.currentPrice > inp.upperPrice

/-- `PercentDriftTrigger.should_trigger`: its private state is
`last_position_value`; it records the first observed value without firing, and
afterwards fires (updating the memory) exactly when the drift reaches the
threshold. -/
def percentDriftShouldTrigger (driftThresholdPct : ℚ) (lastPositionValue : Option ℚ)
    (inp : TriggerInput) : Bool × Option ℚ :=
  match lastPositionValue with
  | none => (false, some inp.positionValue)
  | some lv =>
      if |inp.positionValue - lv| / lv * 100 ≥ driftThresholdPct then
        (true, some inp.positionValue)
      else (false, some lv)

/-- `ElapsedTimeTrigger.should_trigger`: its private state is
`last_triggered`; it records the first observed timestamp without firing, and
afterwards fires when the elapsed time reaches `time_delta`
(the state write on fire is done by the manager, see
`classicShouldTriggerAny`). -/
def elapsedTimeShouldTrigger (timeDelta : ℚ) (lastTriggered : Option ℚ)
    (inp : TriggerInput) : Bool × Option ℚ :=
  match lastTriggered with
  | none => (false, some inp.currentTimestamp)
  | some lt => (decide (inp.currentTimestamp - lt ≥ timeDelta), some lt)

/-- The private state read by the four triggers that
`ClassicStrategy._setup_triggers` registers with the `TriggerManager`
(insertion order: `gap_from_center`, `range_inactive`, `percent_drift`,
`time_elapsed`).  The Gap and RangeInactive triggers are stateless; the
`trigger_count` / `last_triggered` bookkeeping the manager writes is read back
by `ElapsedTimeTrigger` only, so only the drift memory and the elapsed-time
anchor are carried. -/
structure ClassicTriggerState where
  driftLastValue : Option ℚ := none
  timeLastTriggered : Option ℚ := none

/-- `TriggerManager.should_trigger_any` over the four triggers registered by
`ClassicStrategy`: evaluates each trigger's `should_trigger` in insertion
order, collects the fired names, and stamps `last_triggered` on every fired
trigger (which, for `ElapsedTimeTrigger`, resets its anchor to the current
timestamp). -/
def classicShouldTriggerAny (gapBps driftThresholdPct timeDelta : ℚ)
    (s : ClassicTriggerState) (inp : TriggerInput) :
    Bool × List String × ClassicTriggerState :=
  let gapFired := gapFromCenterShouldTrigger 100 (some gapBps) inp
  let rangeFired := rangeInactiveShouldTrigger inp
  let drift := percentDriftShouldTrigger driftThresholdPct s.driftLastValue inp
  let elapsed := elapsedTimeShouldTrigger timeDelta s.timeLastTriggered inp
  let timeLastAfter := if elapsed.1 then some inp.currentTimestamp else elapsed.2
  let triggeredNames :=
    (if gapFired then ["gap_from_center"] else []) ++
    (if rangeFired then ["range_inactive"] else []) ++
    (if drift.1 then ["percent_drift"] else []) ++
    (if elapsed.1 then ["time_elapsed"] else [])
  (decide (0 < triggeredNames.length), triggeredNames,
    { driftLastValue := drift.2, timeLastTriggered := timeLastAfter })

/-- The mutable fields of `BaseStrategy` from `strategies/base.py` that its
`initialize` / `update` logic touches. -/
structure StrategyState where
  initialized : Bool := false
  currentRanges : List (ℚ × ℚ) := []
  currentLiquidities : List ℚ := []
  rebalanceCount : ℕ := 0

/-- `BaseStrategy._should_rebalance(new_ranges, new_liquidities)`: rebalance
when the position count changed, any range bound moved by more than 1%, or any
liquidity moved by more than 5%. -/
def baseShouldRebalance (s : StrategyState) (newRanges : List (ℚ × ℚ))
    (newLiquidities : List ℚ) : Bool :=
  if newRanges.length ≠ s.currentRanges.length then true
  else if newLiquidities.length ≠ s.currentLiquidities.length then true
  else if (newRanges.zip s.currentRanges).any (fun rc =>
      |rc.1.1 - rc.2.1| / rc.2.1 > 1 / 100 || |rc.1.2 - rc.2.2| / rc.2.2 > 1 / 100) then
    true
  else (newLiquidities.zip s.currentLiquidities).any (fun lc =>
    |lc.1 - lc.2| / lc.2 > 5 / 100)

/-- `BaseStrategy.initialize(initial_price, portfolio_value, price_data)`:
a no-op when already initialized, otherwise stores the ranges and liquidities
computed by the concrete strategy's `calculate_range` (abstracted here as the
function `f` over an arbitrary price-history type `α`). -/
def strategyInitialize {α : Type} (f : α → ℚ → ℚ → List (ℚ × ℚ) × List ℚ)
    (s : StrategyState) (priceData : α) (initialPrice portfolioValue : ℚ) :
    StrategyState :=
  if s.initialized then s
  else
    { s with
        initialized := true
        currentRanges := (f priceData initialPrice portfolioValue).1
        currentLiquidities := (f priceData initialPrice portfolioValue).2 }

/-- `BaseStrategy.update(price_data, current_price, portfolio_value,
force_update)`: when uninitialized, initialize and signal a rebalance;
otherwise recompute the target and signal exactly when forced or when
`_should_rebalance` reports a significant change, committing the new target. -/
def baseUpdate {α : Type} (f : α → ℚ → ℚ → List (ℚ × ℚ) × List ℚ)
    (s : StrategyState) (priceData : α) (currentPrice portfolioValue : ℚ)
    (forceUpdate : Bool) : Bool × StrategyState :=
  if s.initialized = false then
    (true, strategyInitialize f s priceData currentPrice portfolioValue)
  else
    let newTarget := f priceData currentPrice portfolioValue
    if forceUpdate || baseShouldRebalance s newTarget.1 newTarget.2 then
      (true,
        { s with
            currentRanges := newTarget.1
            currentLiquidities := newTarget.2
            rebalanceCount := s.rebalanceCount + 1 })
    else (false, s)

/-- `ClassicStrategy._calculate_width`'s width modes. -/
inductive WidthMode
  | percent
  | multiplier
  | staticTicks

/-- `ClassicStrategy._calculate_width(current_price)`. -/
def classicCalculateWidth (widthMode : WidthMode) (widthValue currentPrice : ℚ) : ℚ :=
  match widthMode with
  | .percent => widthValue
  | .multiplier => 5 * widthValue
  | .staticTicks => widthValue * (1 / 10000) / currentPrice * 100

/-- `ClassicStrategy._calculate_center_price`'s placement modes. -/
inductive PlacementMode
  | center
  | recenter
  | dynamic

/-- `ClassicStrategy._calculate_center_price(price_data, current_price)`: the
price history is the list of close prices. -/
def classicCalculateCenterPrice (placementMode : PlacementMode)
    (currentRanges : List (ℚ × ℚ)) (priceData : List ℚ) (currentPrice : ℚ) : ℚ :=
  match placementMode with
  | .center => currentPrice
  | .recenter =>
      match currentRanges with
      | [] => currentPrice
      | (currentLower, currentUpper) :: _ =>
          if currentPrice < currentLower || currentPrice > currentUpper then currentPrice
          else (currentLower + currentUpper) / 2
  | .dynamic =>
      if 20 ≤ priceData.length then
        ((priceData.drop (priceData.length - 20)).sum) / 20
      else currentPrice

/-- The `ClassicStrategy` configuration relevant to range computation
(defaults from `classic.py`: uniform curve, `max_positions = 1`,
`gap_bps = 100`, `drift_threshold_pct = 5.0`, 24-hour elapsed-time trigger,
curve `max_bins = 10`, `liquidity_scale = 0.001`). -/
structure ClassicConfig where
  widthMode : WidthMode
  widthValue : ℚ
  placementMode : PlacementMode
  maxPositions : ℕ := 1
  maxBins : ℕ := 10
  liquidityScale : ℚ := 1 / 1000
  gapBps : ℚ := 100
  driftThresholdPct : ℚ := 5
  timeDelta : ℚ := 24

/-- `ClassicStrategy.calculate_range(price_data, current_price,
portfolio_value)` with the default uniform curve: computes width and center,
generates the curve distribution over `portfolio_value * 0.95`, and — with the
default `max_positions = 1` — keeps only the FIRST bin of that distribution
(falling back to the full width range only when the distribution is empty). -/
def classicCalculateRange (cfg : ClassicConfig) (currentRanges : List (ℚ × ℚ))
    (priceData : List ℚ) (currentPrice portfolioValue : ℚ) :
    List (ℚ × ℚ) × List ℚ :=
  let widthPct := classicCalculateWidth cfg.widthMode cfg.widthValue currentPrice
  let centerPrice := classicCalculateCenterPrice cfg.placementMode currentRanges
    priceData currentPrice
  let distribution := uniformGenerateDistribution cfg.maxBins cfg.liquidityScale
    centerPrice widthPct (portfolioValue * (95 / 100))
  if cfg.maxPositions = 1 then
    match distribution with
    | (lowerPrice, upperPrice, liquidity) :: _ =>
        ([(lowerPrice, upperPrice)], [liquidity])
    | [] =>
        ([(centerPrice * (1 - widthPct / 200), centerPrice * (1 + widthPct / 200))],
         [portfolioValue * (95 / 100) * (1 / 1000)])
  else
    (distribution.map (fun b => (b.1, b.2.1)), distribution.map (fun b => b.2.2))

/-- `ClassicStrategy.should_rebalance`: `True` when uninitialized, otherwise
the `TriggerManager` verdict on the state assembled from the first held range
(center/bounds default to the current price and 0 when no range is held). -/
def classicShouldRebalance (cfg : ClassicConfig) (s : StrategyState)
    (ts : ClassicTriggerState) (currentPrice portfolioValue timestamp : ℚ) :
    Bool × ClassicTriggerState :=
  if s.initialized = false then (true, ts)
  else
    let inp : TriggerInput :=
      { currentPrice := currentPrice
        positionCenter :=
          match s.currentRanges with
          | (l, u) :: _ => (l + u) / 2
          | [] => currentPrice
        lowerPrice := match s.currentRanges with | (l, _) :: _ => l | [] => 0
        upperPrice := match s.currentRanges with | (_, u) :: _ => u | [] => 0
        positionValue := portfolioValue
        currentTimestamp := timestamp }
    let verdict := classicShouldTriggerAny cfg.gapBps cfg.driftThresholdPct
      cfg.timeDelta ts inp
    (verdict.1, verdict.2.2)

/-- `ClassicStrategy.update`: evaluates `force_update or should_rebalance`
(which advances the trigger state) and, on a positive verdict, defers to
`BaseStrategy.update`. -/
def classicUpdate (cfg : ClassicConfig) (s : StrategyState)
    (ts : ClassicTriggerState) (priceData : List ℚ)
    (currentPrice portfolioValue timestamp : ℚ) (forceUpdate : Bool) :
    Bool × StrategyState × ClassicTriggerState :=
  let verdict :=
    if forceUpdate then (true, ts)
    else classicShouldRebalance cfg s ts currentPrice portfolioValue timestamp
  if verdict.1 then
    let r := baseUpdate (fun pd p v => classicCalculateRange cfg s.currentRanges pd p v)
      s priceData currentPrice portfolioValue forceUpdate
    (r.1, r.2, verdict.2)
  else (false, s, verdict.2)

/-! ### Theorems settling the claims -/

/-- `ratTrunc` is the identity on integers. -/
theorem ratTrunc_intCast (z : ℤ) : ratTrunc (z : ℚ) = z := by
  unfold ratTrunc
  split
  · exact Int.floor_intCast z
  · exact Int.ceil_intCast z

/-- Claim C8, counterexample.  The claim says a zero-width range or a negative
liquidity makes the amount/liquidity conversions abort with a fatal assertion;
in `uv3_math.py` a zero-width range instead returns `0` through the explicit
`if diff_x96 == 0: return 0` branch, and a negative liquidity is processed by
the ordinary arithmetic (here returning `-5`): the functions return results,
they never abort. -/
theorem C8_counterexample :
    get_amount0_for_liquidity (2 * Q96) (2 * Q96) (10 * Q96) = 0 ∧
    get_liquidity_for_amount1 Q96 Q96 1000 = 0 ∧
    get_amount1_for_liquidity Q96 (2 * Q96) (-5) = -5 := by
  refine ⟨?_, ?_, ?_⟩
  · simp [get_amount0_for_liquidity]
  · simp [get_liquidity_for_amount1]
  · have hlt : ¬ (Q96 > 2 * Q96) := by norm_num [Q96]
    have hdiff : 2 * Q96 - Q96 ≠ 0 := by norm_num [Q96]
    simp only [get_amount1_for_liquidity, hlt, if_false, hdiff, if_neg]
    have harg : ((-5 : ℤ) : ℚ) * (((2 * Q96 - Q96 : ℤ) : ℚ) / ((Q96 : ℤ) : ℚ)) =
        ((-5 : ℤ) : ℚ) := by
      norm_num [Q96]
    rw [harg, ratTrunc_intCast]

/-- Claim C8 (amended): calling the fixed-point amount/liquidity conversions
with a zero-width range (equal sqrt bounds) returns `0` — an ordinary,
recoverable result, not a fatal assertion — and a negative liquidity likewise
flows through the arithmetic and returns a value (`-5` for one unit-width
range below). -/
theorem C8_amended_zero_width_returns_zero (a liquidity amount0 amount1 : ℤ) :
    get_amount0_for_liquidity a a liquidity = 0 ∧
    get_amount1_for_liquidity a a liquidity = 0 ∧
    get_liquidity_for_amount0 a a amount0 = 0 ∧
    get_liquidity_for_amount1 a a amount1 = 0 ∧
    get_amount1_for_liquidity Q96 (2 * Q96) (-5) = -5 := by
  refine ⟨?_, ?_, ?_, ?_, ?_⟩
  · simp [get_amount0_for_liquidity]
  · simp [get_amount1_for_liquidity]
  · simp [get_liquidity_for_amount0]
  · simp [get_liquidity_for_amount1]
  · have hlt : ¬ (Q96 > 2 * Q96) := by norm_num [Q96]
    have hdiff : 2 * Q96 - Q96 ≠ 0 := by norm_num [Q96]
    simp only [get_amount1_for_liquidity, hlt, if_false, hdiff, if_neg]
    have harg : ((-5 : ℤ) : ℚ) * (((2 * Q96 - Q96 : ℤ) : ℚ) / ((Q96 : ℤ) : ℚ)) =
        ((-5 : ℤ) : ℚ) := by
      norm_num [Q96]
    rw [harg, ratTrunc_intCast]

/-- Claim C9: `rebalance_positions` called with lists of different lengths
raises `ValueError` before any state is touched — the embedding returns the
error and produces no updated portfolio, so the caller's portfolio (cash,
positions, transaction history, rebalance count) is exactly as before. -/
theorem C9_length_mismatch_raises (p : Portfolio) (newRanges : List (ℝ × ℝ))
    (newLiquidities : List ℝ) (currentPrice : ℝ)
    (h : newRanges.length ≠ newLiquidities.length) :
    p.rebalancePositions newRanges newLiquidities currentPrice =
      .error "Number of ranges must match number of liquidities" := by
  simp [Portfolio.rebalancePositions, h]

/-- Witness for C9 at a concrete input: one range and zero liquidities. -/
theorem C9_witness :
    ([((1 : ℝ), (2 : ℝ))].length ≠ ([] : List ℝ).length) ∧
    ({ cash := 10000 : Portfolio }.rebalancePositions [((1 : ℝ), (2 : ℝ))] [] 4 =
      .error "Number of ranges must match number of liquidities") :=
  ⟨by decide, C9_length_mismatch_raises _ _ _ _ (by decide)⟩

/-- Claim C10, counterexample.  `rebalance_to_50_50` leaves the `cash` field
untouched while retargeting `amount0`/`amount1` to half of `get_value` (which
includes that cash), so a HODL-50:50 portfolio holding nonzero cash gains
value: with `cash = 100`, `amount0 = amount1 = 0` and price `2`, the value
jumps from 100 to 200 — `get_value` is not preserved. -/
theorem C10_counterexample :
    (({ cash := 100 : BaselinePortfolio }.rebalanceTo5050 2).getValue 2 = 200) ∧
    ({ cash := 100 : BaselinePortfolio }.getValue 2 = 100) ∧
    ((200 : ℚ) ≠ 100) := by
  refine ⟨?_, ?_, ?_⟩ <;>
    norm_num [BaselinePortfolio.rebalanceTo5050, BaselinePortfolio.getValue]

/-- Claim C10 (amended): for a HODL-50:50 baseline with `cash = 0` — which
holds for every state reached after `initialize_position` — and a positive
price, `rebalance_to_50_50` preserves `get_value` exactly and afterwards
`amount0 * price = amount1` (an exact 50:50 split, no cost charged); for a
baseline with strategy `"single_asset"` it changes nothing. -/
theorem C10_amended_rebalance_50_50 (b : BaselinePortfolio) (price : ℚ) :
    (b.strategy = "hodl_50_50" → b.cash = 0 → 0 < price →
      ((b.rebalanceTo5050 price).getValue price = b.getValue price ∧
        (b.rebalanceTo5050 price).amount0 * price = (b.rebalanceTo5050 price).amount1)) ∧
    (b.strategy = "single_asset" → b.rebalanceTo5050 price = b) := by
  constructor
  · intro hs hcash hp
    have hp0 : price ≠ 0 := ne_of_gt hp
    simp only [BaselinePortfolio.rebalanceTo5050, BaselinePortfolio.getValue, hs,
      ne_eq, not_true_eq_false, if_false, hcash]
    constructor
    · field_simp
      ring
    · field_simp
      ring
  · intro hs
    have : b.strategy ≠ "hodl_50_50" := by rw [hs]; decide
    simp [BaselinePortfolio.rebalanceTo5050, this]

/-- Claim C6, counterexample.  `Backtester.run` calls `strategy.initialize`
BEFORE the bar loop, so the bar-0 `update` runs on an already-initialized
policy and takes the trigger/compare path, not the uninitialized path: for a
policy whose `calculate_range` is constant, replaying the engine's exact
pre-loop-plus-bar-0 sequence (`initialize` then `update`) yields NO rebalance
signal at bar 0 — the engine's bar-0 initialization does not force a first
rebalance for every policy. -/
theorem C6_counterexample :
    (baseUpdate (fun (_ : Unit) (_ : ℚ) (_ : ℚ) => ([((1 : ℚ), (2 : ℚ))], [(5 : ℚ)]))
      (strategyInitialize (fun (_ : Unit) (_ : ℚ) (_ : ℚ) => ([((1 : ℚ), (2 : ℚ))], [(5 : ℚ)]))
        {} () 2000 10000)
      () 2000 10000 false).1 = false := by
  norm_num [baseUpdate, strategyInitialize, baseShouldRebalance]

/-- Claim C6 (amended): for every policy in the UNINITIALIZED state, the first
call to `update` — whether through `BaseStrategy.update` or through
`ClassicStrategy.update` — initializes the policy with the ranges computed by
its `calculate_range` and returns a rebalance signal.  The engine, however,
calls `initialize()` before the bar loop, so its bar-0 `update` runs on an
already-initialized policy and signals a rebalance only when the policy's
change test or triggers fire. -/
theorem C6_amended_first_update_signals {α : Type}
    (f : α → ℚ → ℚ → List (ℚ × ℚ) × List ℚ) (s : StrategyState) (priceData : α)
    (currentPrice portfolioValue : ℚ) (forceUpdate : Bool)
    (h : s.initialized = false) :
    baseUpdate f s priceData currentPrice portfolioValue forceUpdate =
      (true, strategyInitialize f s priceData currentPrice portfolioValue) ∧
    (strategyInitialize f s priceData currentPrice portfolioValue).initialized = true ∧
    (strategyInitialize f s priceData currentPrice portfolioValue).currentRanges =
      (f priceData currentPrice portfolioValue).1 ∧
    (strategyInitialize f s priceData currentPrice portfolioValue).currentLiquidities =
      (f priceData currentPrice portfolioValue).2 ∧
    ∀ (cfg : ClassicConfig) (ts : ClassicTriggerState) (pd : List ℚ)
      (price value timestamp : ℚ) (fu : Bool),
      (classicUpdate cfg s ts pd price value timestamp fu).1 = true := by
  refine ⟨?_, ?_, ?_, ?_, ?_⟩
  · simp [baseUpdate, h]
  · simp [strategyInitialize, h]
  · simp [strategyInitialize, h]
  · simp [strategyInitialize, h]
  · intro cfg ts pd price value timestamp fu
    cases fu <;> simp [classicUpdate, classicShouldRebalance, baseUpdate, h]

/-- Witness for C6 at a concrete input: a fresh (uninitialized) policy with a
constant `calculate_range`. -/
theorem C6_witness :
    ({} : StrategyState).initialized = false ∧
    (baseUpdate (fun (_ : Unit) (_ : ℚ) (_ : ℚ) => ([((1 : ℚ), (3 : ℚ))], [(7 : ℚ)]))
      {} () 2 100 false).1 = true := by
  refine ⟨rfl, ?_⟩
  rw [(C6_amended_first_update_signals
    (fun (_ : Unit) (_ : ℚ) (_ : ℚ) => ([((1 : ℚ), (3 : ℚ))], [(7 : ℚ)]))
    {} () 2 100 false rfl).1]

/-- The name `"gap_from_center"` appears in the fired list of
`classicShouldTriggerAny` exactly when the gap trigger's own predicate fires;
the other triggers' names differ from it, and the other triggers' private
state never reaches the gap verdict. -/
theorem gap_mem_fired_iff (gapBps driftThresholdPct timeDelta : ℚ)
    (s : ClassicTriggerState) (inp : TriggerInput) :
    ("gap_from_center" ∈ (classicShouldTriggerAny gapBps driftThresholdPct
        timeDelta s inp).2.1) ↔
      gapFromCenterShouldTrigger 100 (some gapBps) inp = true := by
  simp only [classicShouldTriggerAny]
  cases hg : gapFromCenterShouldTrigger 100 (some gapBps) inp <;>
    cases hr : rangeInactiveShouldTrigger inp <;>
      cases hd : (percentDriftShouldTrigger driftThresholdPct s.driftLastValue inp).1 <;>
        cases he : (elapsedTimeShouldTrigger timeDelta s.timeLastTriggered inp).1 <;>
          simp_all

/-- Claim C5: the gap trigger constructed with `gap_bps = 100` fires — i.e.
contributes `"gap_from_center"` to `should_trigger_any`'s fired list — iff
`|current_price - position_center| / position_center * 10000 ≥ 100`, and the
verdict is unchanged when every other trigger's private state is replaced
arbitrarily. -/
theorem C5_gap_trigger_iff_and_independent (driftThresholdPct timeDelta : ℚ)
    (s1 s2 : ClassicTriggerState) (inp : TriggerInput)
    (hc : 0 < inp.positionCenter) :
    (("gap_from_center" ∈ (classicShouldTriggerAny 100 driftThresholdPct
        timeDelta s1 inp).2.1) ↔
      |inp.currentPrice - inp.positionCenter| / inp.positionCenter * 10000 ≥ 100) ∧
    (("gap_from_center" ∈ (classicShouldTriggerAny 100 driftThresholdPct
        timeDelta s1 inp).2.1) ↔
      ("gap_from_center" ∈ (classicShouldTriggerAny 100 driftThresholdPct
        timeDelta s2 inp).2.1)) := by
  constructor
  · rw [gap_mem_fired_iff]
    simp [gapFromCenterShouldTrigger]
  · rw [gap_mem_fired_iff, gap_mem_fired_iff]

/-- Witness for C5 at a concrete input: price 2150 against center 1920 (a
deviation of about 1198 bps), with two different drift/elapsed-time trigger
states. -/
theorem C5_witness :
    (0 : ℚ) < 1920 ∧
    ((("gap_from_center" ∈ (classicShouldTriggerAny 100 5 24 {}
        { currentPrice := 2150, positionCenter := 1920, lowerPrice := 1900,
          upperPrice := 1940, positionValue := 10000,
          currentTimestamp := 0 }).2.1) ↔
      |(2150 : ℚ) - 1920| / 1920 * 10000 ≥ 100) ∧
    (("gap_from_center" ∈ (classicShouldTriggerAny 100 5 24 {}
        { currentPrice := 2150, positionCenter := 1920, lowerPrice := 1900,
          upperPrice := 1940, positionValue := 10000,
          currentTimestamp := 0 }).2.1) ↔
      ("gap_from_center" ∈ (classicShouldTriggerAny 100 5 24
        { driftLastValue := some 3, timeLastTriggered := some 7 }
        { currentPrice := 2150, positionCenter := 1920, lowerPrice := 1900,
          upperPrice := 1940, positionValue := 10000,
          currentTimestamp := 0 }).2.1))) :=
  ⟨by norm_num,
    C5_gap_trigger_iff_and_independent 5 24 {}
      { driftLastValue := some 3, timeLastTriggered := some 7 }
      { currentPrice := 2150, positionCenter := 1920, lowerPrice := 1900,
        upperPrice := 1940, positionValue := 10000, currentTimestamp := 0 }
      (by norm_num)⟩

/-- Evaluation of the uniform five-bin distribution at center 2000, width 10%,
budget 9500 USD (the classic strategy passes `portfolio_value * 0.95`). -/
theorem uniform_dist_2000 :
    uniformGenerateDistribution 10 (1 / 1000) 2000 10 9500 =
      [(1900, 1940, 20), (1940, 1980, 20), (1980, 2020, 20), (2020, 2060, 20),
        (2060, 2100, 20)] := by
  have hscaled : scaledLiquidity (1 / 1000) 9500 = 100 := by
    unfold scaledLiquidity
    rw [max_eq_right (by norm_num)]
  have hn : curveBinCount 10 2 10 = 5 := by
    unfold curveBinCount ratTrunc
    norm_num
    decide
  simp only [uniformGenerateDistribution, hscaled, hn, curveBins]
  rw [show List.range 5 = [0, 1, 2, 3, 4] from rfl]
  simp only [List.map]
  norm_num

/-- Evaluation of the uniform five-bin distribution at center 2150, width 10%,
budget 9500 USD. -/
theorem uniform_dist_2150 :
    uniformGenerateDistribution 10 (1 / 1000) 2150 10 9500 =
      [(4085 / 2, 4171 / 2, 20), (4171 / 2, 4257 / 2, 20), (4257 / 2, 4343 / 2, 20),
        (4343 / 2, 4429 / 2, 20), (4429 / 2, 4515 / 2, 20)] := by
  have hscaled : scaledLiquidity (1 / 1000) 9500 = 100 := by
    unfold scaledLiquidity
    rw [max_eq_right (by norm_num)]
  have hn : curveBinCount 10 2 10 = 5 := by
    unfold curveBinCount ratTrunc
    norm_num
    decide
  simp only [uniformGenerateDistribution, hscaled, hn, curveBins]
  rw [show List.range 5 = [0, 1, 2, 3, 4] from rfl]
  simp only [List.map]
  norm_num

/-- Claim C4: the code contradicts the claimed scenario (and its own comment
"for single position, use the first (and only) bin").  With width 10% the
distribution has five bins, and `max_positions = 1` keeps only the FIRST one:
`calculate_range` at price 2000 returns `(1900, 1940)`, not `(1900, 2100)`.
After the price moves to 2150, `RangeInactiveTrigger` fires and `update`
signals a rebalance, but the new held range is the first bin
`(2042.5, 2085.5)` of the distribution centered at 2150 — its center is
2064.0, not 2150. -/
theorem C4_code_bug_first_bin_only :
    (classicCalculateRange
        { widthMode := .percent, widthValue := 10, placementMode := .center }
        [] [] 2000 10000).1 = [(1900, 1940)] ∧
    (classicCalculateRange
        { widthMode := .percent, widthValue := 10, placementMode := .center }
        [] [] 2000 10000).1 ≠ [(1900, 2100)] ∧
    rangeInactiveShouldTrigger
      { currentPrice := 2150, positionCenter := 1920, lowerPrice := 1900,
        upperPrice := 1940, positionValue := 10000, currentTimestamp := 0 } = true ∧
    (classicUpdate { widthMode := .percent, widthValue := 10, placementMode := .center }
        { initialized := true, currentRanges := [(1900, 1940)],
          currentLiquidities := [20] }
        {} [] 2150 10000 0 false).1 = true ∧
    (classicUpdate { widthMode := .percent, widthValue := 10, placementMode := .center }
        { initialized := true, currentRanges := [(1900, 1940)],
          currentLiquidities := [20] }
        {} [] 2150 10000 0 false).2.1.currentRanges = [(4085 / 2, 4171 / 2)] ∧
    ((4085 / 2 + 4171 / 2) / 2 : ℚ) ≠ 2150 := by
  have h9500 : (10000 : ℚ) * (95 / 100) = 9500 := by norm_num
  have hcalc2000 : (classicCalculateRange
      { widthMode := .percent, widthValue := 10, placementMode := .center }
      [] [] 2000 10000) = ([(1900, 1940)], [20]) := by
    unfold classicCalculateRange
    simp only [classicCalculateWidth, classicCalculateCenterPrice]
    rw [h9500, uniform_dist_2000]
    norm_num
  have hcalc2150 : (classicCalculateRange
      { widthMode := .percent, widthValue := 10, placementMode := .center }
      [(1900, 1940)] [] 2150 10000) = ([(4085 / 2, 4171 / 2)], [20]) := by
    unfold classicCalculateRange
    simp only [classicCalculateWidth, classicCalculateCenterPrice]
    rw [h9500, uniform_dist_2150]
    norm_num
  have hupd : (classicUpdate
      { widthMode := .percent, widthValue := 10, placementMode := .center }
      { initialized := true, currentRanges := [(1900, 1940)], currentLiquidities := [20] }
      {} [] 2150 10000 0 false) =
      (true,
        { initialized := true, currentRanges := [(4085 / 2, 4171 / 2)],
          currentLiquidities := [20], rebalanceCount := 1 },
        { driftLastValue := some 10000, timeLastTriggered := some 0 }) := by
    unfold classicUpdate classicShouldRebalance classicShouldTriggerAny
    norm_num [gapFromCenterShouldTrigger, rangeInactiveShouldTrigger,
      percentDriftShouldTrigger, elapsedTimeShouldTrigger]
    simp only [baseUpdate]
    rw [hcalc2150]
    norm_num [baseShouldRebalance]
    have hcond : (1 / 100 : ℚ) < |(285 : ℚ) / 2| / 1900 ∨
        (1 / 100 : ℚ) < |(291 : ℚ) / 2| / 1940 := by
      left
      rw [abs_of_nonneg (by norm_num : (0 : ℚ) ≤ 285 / 2)]
      norm_num
    simp only [if_pos hcond]
    simp
  refine ⟨by rw [hcalc2000], by rw [hcalc2000]; norm_num, by
    norm_num [rangeInactiveShouldTrigger], by rw [hupd], by rw [hupd], by norm_num⟩

/-- Element formula for the shared bin grid. -/
theorem curveBins_get (n : ℕ) (a step : ℚ) (liq : ℕ → ℚ) (i : ℕ)
    (h : i < (curveBins n a step liq).length) :
    (curveBins n a step liq).get ⟨i, h⟩ =
      (a + step * (i : ℚ), a + step * ((i : ℚ) + 1), liq i) := by
  simp [curveBins]

/-- The shared bin grid of `curves.py` is well formed for any positive bin
count, positive step, and positive per-bin liquidities. -/
theorem curveBins_distribution_spec (n : ℕ) (a step : ℚ) (liq : ℕ → ℚ)
    (hn : 0 < n) (hstep : 0 < step) (hliq : ∀ i, i < n → 0 < liq i) :
    curveDistributionOK (curveBins n a step liq) n a (a + step * n) := by
  have hlen : (curveBins n a step liq).length = n := by simp [curveBins]
  refine ⟨hn, hlen, ?_, ?_, ?_, ?_, ?_⟩
  · intro i h hi
    subst hi
    rw [curveBins_get]
    norm_num
  · intro i h hi
    subst hi
    rw [curveBins_get]
    have hcast : ((n - 1 : ℕ) : ℚ) + 1 = (n : ℚ) := by
      have h1 : 1 ≤ n := hn
      push_cast [Nat.cast_sub h1]
      ring
    show a + step * ((((n - 1 : ℕ) : ℚ)) + 1) = a + step * (n : ℚ)
    rw [hcast]
  · intro i h1 h2
    rw [curveBins_get, curveBins_get]
    show a + step * ((i : ℚ) + 1) = a + step * ((i + 1 : ℕ) : ℚ)
    push_cast
    ring
  · intro i h
    rw [curveBins_get]
    show a + step * (i : ℚ) < a + step * ((i : ℚ) + 1)
    have := mul_lt_mul_of_pos_left (lt_add_one (i : ℚ)) hstep
    linarith
  · intro b hb
    simp only [curveBins, List.mem_map, List.mem_range] at hb
    obtain ⟨i, hi, rfl⟩ := hb
    exact hliq i hi

/-- The scaled budget is at least the floor of 100, hence positive. -/
theorem scaledLiquidity_pos (liquidityScale totalLiquidity : ℚ) :
    0 < scaledLiquidity liquidityScale totalLiquidity :=
  lt_of_lt_of_le (by norm_num) (le_max_right _ _)

/-- The clamped bin count is at least `min_bins`. -/
theorem curveBinCount_pos (maxBins minBins : ℕ) (widthPct : ℚ) (h : 0 < minBins) :
    0 < curveBinCount maxBins minBins widthPct :=
  lt_of_lt_of_le h (Nat.le_max_left _ _)

/-- Transport of well-formedness along equal interval endpoints. -/
theorem curveDistributionOK_congr {bins : List (ℚ × ℚ × ℚ)} {n : ℕ}
    {lo hi lo2 hi2 : ℚ} (h1 : lo = lo2) (h2 : hi = hi2)
    (h : curveDistributionOK bins n lo hi) : curveDistributionOK bins n lo2 hi2 :=
  h1 ▸ h2 ▸ h

/-- Instantiated well-formedness for the grid every curve variant builds:
`n` bins from `center - width/2` with step `width/n` cover exactly
`[center*(1 - width_pct/200), center*(1 + width_pct/200)]`. -/
theorem curve_variant_spec (n : ℕ) (centerPrice widthPct : ℚ) (liq : ℕ → ℚ)
    (hn : 0 < n) (hc : 0 < centerPrice) (hw : 0 < widthPct)
    (hliq : ∀ i, i < n → 0 < liq i) :
    curveDistributionOK
      (curveBins n (centerPrice - centerPrice * widthPct / 100 / 2)
        (centerPrice * widthPct / 100 / (n : ℚ)) liq) n
      (centerPrice * (1 - widthPct / 200)) (centerPrice * (1 + widthPct / 200)) := by
  have hnq : ((n : ℚ)) ≠ 0 := Nat.cast_ne_zero.mpr hn.ne'
  have hnq2 : (0 : ℚ) < (n : ℚ) := by exact_mod_cast hn
  have hstep : 0 < centerPrice * widthPct / 100 / (n : ℚ) := by positivity
  refine curveDistributionOK_congr ?_ ?_
    (curveBins_distribution_spec n _ _ liq hn hstep hliq)
  · ring
  · field_simp
    ring

/-- Per-bin liquidity sum of the uniform grid. -/
theorem binsLiquiditySum_const (n : ℕ) (a step c : ℚ) :
    binsLiquiditySum (curveBins n a step (fun _ => c)) = n * c := by
  unfold binsLiquiditySum curveBins
  rw [List.map_map]
  have key : ∀ (m : ℕ), ((List.range m).map (fun _ => c)).sum = m * c := by
    intro m
    induction m with
    | zero => simp
    | succ j ih =>
        rw [List.range_succ, List.map_append, List.sum_append, ih]
        push_cast
        simp
        ring
  exact key n

/-- Claim C3 (amended): for every curve variant and all positive center prices
and widths, `generate_distribution` yields `clamp(⌊width_pct/2⌋, min_bins,
max_bins)` contiguous, non-overlapping, positively-sized bins exactly covering
`[center*(1 - width_pct/200), center*(1 + width_pct/200)]`, each with
liquidity > 0 — but the liquidities sum to `max(total_liquidity_usd * scale,
100)` times the mean per-bin weight, NOT approximately
`total_liquidity_usd * scale`: the uniform curve's sum is exactly
`max(total_liquidity_usd * scale, 100)`, which the budget floor decouples from
the requested budget, and the non-uniform weights are not normalized.  The
transcendental weight functions (`np.exp`, `np.log`) are abstracted as `gexp`
and `glog`; every stated property holds for every choice. -/
theorem C3_amended_curve_distribution (maxBins : ℕ)
    (liquidityScale slope stdDev k logBase peakSeparation peakWidth : ℚ)
    (gexp glog : ℚ → ℚ) (centerPrice widthPct totalLiquidity : ℚ)
    (hc : 0 < centerPrice) (hw : 0 < widthPct) :
    curveDistributionOK
      (uniformGenerateDistribution maxBins liquidityScale centerPrice widthPct
        totalLiquidity)
      (curveBinCount maxBins 2 widthPct)
      (centerPrice * (1 - widthPct / 200)) (centerPrice * (1 + widthPct / 200)) ∧
    binsLiquiditySum
      (uniformGenerateDistribution maxBins liquidityScale centerPrice widthPct
        totalLiquidity) =
      scaledLiquidity liquidityScale totalLiquidity ∧
    curveDistributionOK
      (linearGenerateDistribution maxBins liquidityScale slope centerPrice widthPct
        totalLiquidity)
      (curveBinCount maxBins 2 widthPct)
      (centerPrice * (1 - widthPct / 200)) (centerPrice * (1 + widthPct / 200)) ∧
    curveDistributionOK
      (gaussianGenerateDistribution gexp maxBins liquidityScale stdDev centerPrice
        widthPct totalLiquidity)
      (curveBinCount maxBins 3 widthPct)
      (centerPrice * (1 - widthPct / 200)) (centerPrice * (1 + widthPct / 200)) ∧
    curveDistributionOK
      (sigmoidGenerateDistribution gexp maxBins liquidityScale k centerPrice
        widthPct totalLiquidity)
      (curveBinCount maxBins 3 widthPct)
      (centerPrice * (1 - widthPct / 200)) (centerPrice * (1 + widthPct / 200)) ∧
    curveDistributionOK
      (logarithmicGenerateDistribution glog maxBins liquidityScale logBase
        centerPrice widthPct totalLiquidity)
      (curveBinCount maxBins 3 widthPct)
      (centerPrice * (1 - widthPct / 200)) (centerPrice * (1 + widthPct / 200)) ∧
    curveDistributionOK
      (bidAskGenerateDistribution gexp maxBins liquidityScale peakSeparation
        peakWidth centerPrice widthPct totalLiquidity)
      (curveBinCount maxBins 5 widthPct)
      (centerPrice * (1 - widthPct / 200)) (centerPrice * (1 + widthPct / 200)) := by
  have hn2 : 0 < curveBinCount maxBins 2 widthPct := curveBinCount_pos _ _ _ (by norm_num)
  have hn3 : 0 < curveBinCount maxBins 3 widthPct := curveBinCount_pos _ _ _ (by norm_num)
  have hn5 : 0 < curveBinCount maxBins 5 widthPct := curveBinCount_pos _ _ _ (by norm_num)
  have hsc : 0 < scaledLiquidity liquidityScale totalLiquidity := scaledLiquidity_pos _ _
  have hq2 : (0 : ℚ) < (curveBinCount maxBins 2 widthPct : ℚ) := by exact_mod_cast hn2
  have hq3 : (0 : ℚ) < (curveBinCount maxBins 3 widthPct : ℚ) := by exact_mod_cast hn3
  have hq5 : (0 : ℚ) < (curveBinCount maxBins 5 widthPct : ℚ) := by exact_mod_cast hn5
  refine ⟨?_, ?_, ?_, ?_, ?_, ?_, ?_⟩
  · exact curve_variant_spec _ _ _ _ hn2 hc hw (fun i _ => div_pos hsc hq2)
  · show binsLiquiditySum (curveBins _ _ _ _) = _
    rw [binsLiquiditySum_const, mul_comm]
    exact div_mul_cancel₀ _ hq2.ne'
  · exact curve_variant_spec _ _ _ _ hn2 hc hw
      (fun i _ => lt_max_of_lt_right (by positivity))
  · exact curve_variant_spec _ _ _ _ hn3 hc hw
      (fun i _ => lt_max_of_lt_right (by positivity))
  · exact curve_variant_spec _ _ _ _ hn3 hc hw
      (fun i _ => lt_max_of_lt_right (by positivity))
  · exact curve_variant_spec _ _ _ _ hn3 hc hw
      (fun i _ => lt_max_of_lt_right (by positivity))
  · exact curve_variant_spec _ _ _ _ hn5 hc hw
      (fun i _ => lt_max_of_lt_right (by positivity))

/-- Claim C3, counterexample.  For the uniform curve with the default
`liquidity_scale = 0.001` and budget 1000 USD, the requested
`total_liquidity_usd * scale` is 1, but the `max(..., 100.0)` floor in
`generate_distribution` makes the liquidities sum to 100 — one hundred times
the requested amount, refuting `Σ liquidity ≈ total_liquidity_usd * scale`. -/
theorem C3_counterexample :
    binsLiquiditySum (uniformGenerateDistribution 10 (1 / 1000) 100 10 1000) = 100 ∧
    (1000 : ℚ) * (1 / 1000) = 1 ∧
    binsLiquiditySum (uniformGenerateDistribution 10 (1 / 1000) 100 10 1000) =
      100 * ((1000 : ℚ) * (1 / 1000)) := by
  have hscaled : scaledLiquidity (1 / 1000) 1000 = 100 := by
    unfold scaledLiquidity
    rw [max_eq_right (by norm_num)]
  have hn : curveBinCount 10 2 10 = 5 := by
    unfold curveBinCount ratTrunc
    norm_num
    decide
  have hdist : uniformGenerateDistribution 10 (1 / 1000) 100 10 1000 =
      [(95, 97, 20), (97, 99, 20), (99, 101, 20), (101, 103, 20), (103, 105, 20)] := by
    simp only [uniformGenerateDistribution, hscaled, hn, curveBins]
    rw [show List.range 5 = [0, 1, 2, 3, 4] from rfl]
    simp only [List.map]
    norm_num
  rw [hdist]
  unfold binsLiquiditySum
  norm_num

/-- Witness for C3 at a concrete input: the uniform curve with default scale
at center 2000, width 10%, budget 9500. -/
theorem C3_witness :
    (0 : ℚ) < 2000 ∧ (0 : ℚ) < 10 ∧
    curveDistributionOK (uniformGenerateDistribution 10 (1 / 1000) 2000 10 9500)
      (curveBinCount 10 2 10) (2000 * (1 - 10 / 200)) (2000 * (1 + 10 / 200)) :=
  ⟨by norm_num, by norm_num,
    (C3_amended_curve_distribution 10 (1 / 1000) 1 (1 / 2) 5 2 (1 / 10) (1 / 20)
      (fun _ => 1) (fun _ => 1) 2000 10 9500 (by norm_num) (by norm_num)).1⟩

/-- Claim C7: for every price in `[1e-6, 1e9]`, converting to X96 sqrt form
and back — `sqrt_price_x96_to_price(price_to_sqrt_price_x96(p))` — is within
relative error `< 1e-6` of `p`.  The only rounding is the `int()` truncation
of `sqrt(p) * Q96`, which loses less than one part in `sqrt(p) * 2^96`. -/
theorem C7_sqrt_price_roundtrip (p : ℝ) (h1 : 1 / 1000000 ≤ p)
    (h2 : p ≤ 1000000000) :
    |sqrt_price_x96_to_price (price_to_sqrt_price_x96 p) - p| / p < 1 / 1000000 := by
  have hp : 0 < p := lt_of_lt_of_le (by norm_num) h1
  have hs : 0 < Real.sqrt p := Real.sqrt_pos.mpr hp
  have hsq : Real.sqrt p ^ 2 = p := Real.sq_sqrt hp.le
  have hQpos : (0 : ℝ) < ((Q96 : ℤ) : ℝ) := by norm_num [Q96]
  have hfloor_le : ((⌊Real.sqrt p * ((Q96 : ℤ) : ℝ)⌋ : ℤ) : ℝ) ≤
      Real.sqrt p * ((Q96 : ℤ) : ℝ) := Int.floor_le _
  have hfloor_gt : Real.sqrt p * ((Q96 : ℤ) : ℝ) - 1 <
      ((⌊Real.sqrt p * ((Q96 : ℤ) : ℝ)⌋ : ℤ) : ℝ) := Int.sub_one_lt_floor _
  have hm_nonneg : (0 : ℝ) ≤ ((⌊Real.sqrt p * ((Q96 : ℤ) : ℝ)⌋ : ℤ) : ℝ) := by
    have h0 : (0 : ℤ) ≤ ⌊Real.sqrt p * ((Q96 : ℤ) : ℝ)⌋ :=
      Int.floor_nonneg.mpr (mul_nonneg (Real.sqrt_nonneg p) hQpos.le)
    exact_mod_cast h0
  unfold sqrt_price_x96_to_price price_to_sqrt_price_x96
  set t : ℝ := ((⌊Real.sqrt p * ((Q96 : ℤ) : ℝ)⌋ : ℤ) : ℝ) / ((Q96 : ℤ) : ℝ) with ht
  have ht_le : t ≤ Real.sqrt p := by
    rw [ht, div_le_iff hQpos]
    exact hfloor_le
  have ht_gt : Real.sqrt p - 1 / ((Q96 : ℤ) : ℝ) < t := by
    rw [ht, lt_div_iff hQpos]
    have hexp : (Real.sqrt p - 1 / ((Q96 : ℤ) : ℝ)) * ((Q96 : ℤ) : ℝ) =
        Real.sqrt p * ((Q96 : ℤ) : ℝ) - 1 := by
      field_simp
    rw [hexp]
    exact hfloor_gt
  have ht_nonneg : 0 ≤ t := by
    rw [ht]
    exact div_nonneg hm_nonneg hQpos.le
  have ht2_le : t ^ 2 ≤ p := by
    rw [← hsq]
    exact pow_le_pow_left ht_nonneg ht_le 2
  have hbound : p - t ^ 2 < 2 * Real.sqrt p / ((Q96 : ℤ) : ℝ) := by
    have hfac : (Real.sqrt p - t) * (Real.sqrt p + t) = p - t ^ 2 := by
      have hexpand : (Real.sqrt p - t) * (Real.sqrt p + t) = Real.sqrt p ^ 2 - t ^ 2 := by
        ring
      rw [hexpand, hsq]
    rw [← hfac]
    have e1 : Real.sqrt p - t < 1 / ((Q96 : ℤ) : ℝ) := by linarith
    have e2 : Real.sqrt p + t ≤ 2 * Real.sqrt p := by linarith
    have e3 : 0 ≤ Real.sqrt p - t := by linarith
    calc (Real.sqrt p - t) * (Real.sqrt p + t) ≤
        (Real.sqrt p - t) * (2 * Real.sqrt p) := mul_le_mul_of_nonneg_left e2 e3
      _ < (1 / ((Q96 : ℤ) : ℝ)) * (2 * Real.sqrt p) :=
          mul_lt_mul_of_pos_right e1 (by positivity)
      _ = 2 * Real.sqrt p / ((Q96 : ℤ) : ℝ) := by ring
  have hs_lb : (1 / 1000 : ℝ) ≤ Real.sqrt p := by
    have hmono : Real.sqrt ((1 / 1000) ^ 2) ≤ Real.sqrt p := by
      apply Real.sqrt_le_sqrt
      nlinarith
    rwa [Real.sqrt_sq (by norm_num : (0 : ℝ) ≤ 1 / 1000)] at hmono
  have hsQ : (2000000 : ℝ) ≤ Real.sqrt p * ((Q96 : ℤ) : ℝ) := by
    calc (2000000 : ℝ) ≤ (1 / 1000) * ((Q96 : ℤ) : ℝ) := by norm_num [Q96]
      _ ≤ Real.sqrt p * ((Q96 : ℤ) : ℝ) := mul_le_mul_of_nonneg_right hs_lb hQpos.le
  have hfinal : 2 * Real.sqrt p / ((Q96 : ℤ) : ℝ) ≤ p / 1000000 := by
    rw [div_le_div_iff hQpos (by norm_num : (0 : ℝ) < 1000000)]
    have hmul : Real.sqrt p * (2000000 : ℝ) ≤
        Real.sqrt p * (Real.sqrt p * ((Q96 : ℤ) : ℝ)) :=
      mul_le_mul_of_nonneg_left hsQ hs.le
    nlinarith
  rw [abs_of_nonpos (by linarith : t ^ 2 - p ≤ 0), div_lt_iff hp]
  linarith

/-- Witness for C7 at the concrete price 4. -/
theorem C7_witness :
    (1 / 1000000 : ℝ) ≤ 4 ∧ (4 : ℝ) ≤ 1000000000 ∧
    |sqrt_price_x96_to_price (price_to_sqrt_price_x96 4) - 4| / 4 < 1 / 1000000 :=
  ⟨by norm_num, by norm_num, C7_sqrt_price_roundtrip 4 (by norm_num) (by norm_num)⟩

/-- Claim C2, counterexample.  With `gas_cost = 7` and an empty rebalance, the
returned cost is `7` (fee component `0` plus gas), but the cash is NOT debited
by that cost: `cash -= total_cost` runs before the gas cost is added to
`total_cost`, so cash stays `10000` instead of `10000 - 7`. -/
theorem C2_counterexample :
    Portfolio.rebalancePositions { cash := 10000, gasCost := 7 } [] [] 1 =
      .ok ({ cash := 10000, gasCost := 7,
             transactionHistory := [{ cost := 7, positionsCount := 0 }],
             totalFeesPaid := 7, totalGasPaid := 7, rebalanceCount := 1 }, 7) ∧
    (10000 : ℝ) - 7 ≠ 10000 := by
  constructor
  · simp only [Portfolio.rebalancePositions]
    norm_num
  · norm_num

/-- Claim C2 (amended): `rebalance_positions` returns
`cost = Σ new_position_value * fee_bps/10⁴ + gas_cost`, appends exactly one
transaction record and increments `rebalance_count` by one — but it debits
cash only by the fee component (after crediting the liquidated positions'
value and fees): the gas portion of the returned cost is never taken out of
cash. -/
theorem C2_amended_cost_accounting (p : Portfolio) (newRanges : List (ℝ × ℝ))
    (newLiquidities : List ℝ) (currentPrice : ℝ)
    (hlen : newRanges.length = newLiquidities.length) (hgas : 0 ≤ p.gasCost) :
    ∃ q : Portfolio, ∃ cost : ℝ,
      p.rebalancePositions newRanges newLiquidities currentPrice = .ok (q, cost) ∧
      cost = ((newRanges.zip newLiquidities).map (fun rl =>
          (calculate_position_value currentPrice rl.1.1 rl.1.2 rl.2).2.2 *
            (p.feeBps / 10000))).sum + p.gasCost ∧
      q.cash = p.cash + (p.positions.map
          (fun pos => (pos.getValue currentPrice).2.2 + pos.feesEarned)).sum -
        ((newRanges.zip newLiquidities).map (fun rl =>
          (calculate_position_value currentPrice rl.1.1 rl.1.2 rl.2).2.2 *
            (p.feeBps / 10000))).sum ∧
      q.transactionHistory = p.transactionHistory ++
        [{ cost := cost, positionsCount := newRanges.length }] ∧
      q.rebalanceCount = p.rebalanceCount + 1 := by
  have hfee : (((newRanges.zip newLiquidities).map
      (fun rl => { lowerPrice := rl.1.1, upperPrice := rl.1.2, liquidity := rl.2 : Position })).map
      (fun pos => (pos.getValue currentPrice).2.2 * (p.feeBps / 10000))).sum =
      ((newRanges.zip newLiquidities).map (fun rl =>
        (calculate_position_value currentPrice rl.1.1 rl.1.2 rl.2).2.2 *
          (p.feeBps / 10000))).sum := by
    rw [List.map_map]
    rfl
  have hcount : (((newRanges.zip newLiquidities).map
      (fun rl => { lowerPrice := rl.1.1, upperPrice := rl.1.2, liquidity := rl.2 : Position })).length) =
      newRanges.length := by
    rw [List.length_map, List.length_zip, hlen, min_self]
  unfold Portfolio.rebalancePositions
  rw [if_neg (by simp [hlen])]
  by_cases hg : p.gasCost > 0
  · refine ⟨_, _, rfl, ?_, ?_, ?_, ?_⟩
    · rw [if_pos hg, hfee]
    · rw [hfee]
    · rw [if_pos hg, hcount]
    · rfl
  · have hg0 : p.gasCost = 0 := le_antisymm (not_lt.mp hg) hgas
    refine ⟨_, _, rfl, ?_, ?_, ?_, ?_⟩
    · rw [if_neg hg, hfee, hg0, add_zero]
    · rw [hfee]
    · rw [if_neg hg, hcount]
    · rfl

/-- Witness for C2 at a concrete input: an empty rebalance on a fresh
portfolio with zero gas cost. -/
theorem C2_witness :
    (([] : List (ℝ × ℝ)).length = ([] : List ℝ).length ∧
      (0 : ℝ) ≤ ({ cash := 10000 : Portfolio }).gasCost) ∧
    (∃ q : Portfolio, ∃ cost : ℝ,
      ({ cash := 10000 : Portfolio }).rebalancePositions [] [] 1 = .ok (q, cost) ∧
      cost = (([] : List ((ℝ × ℝ) × ℝ)).map (fun rl =>
          (calculate_position_value 1 rl.1.1 rl.1.2 rl.2).2.2 *
            (({ cash := 10000 : Portfolio }).feeBps / 10000))).sum +
        ({ cash := 10000 : Portfolio }).gasCost ∧
      q.cash = ({ cash := 10000 : Portfolio }).cash +
        ((({ cash := 10000 : Portfolio }).positions).map
          (fun pos => (pos.getValue 1).2.2 + pos.feesEarned)).sum -
        (([] : List ((ℝ × ℝ) × ℝ)).map (fun rl =>
          (calculate_position_value 1 rl.1.1 rl.1.2 rl.2).2.2 *
            (({ cash := 10000 : Portfolio }).feeBps / 10000))).sum ∧
      q.transactionHistory = ({ cash := 10000 : Portfolio }).transactionHistory ++
        [{ cost := cost, positionsCount := ([] : List (ℝ × ℝ)).length }] ∧
      q.rebalanceCount = ({ cash := 10000 : Portfolio }).rebalanceCount + 1) :=
  ⟨⟨rfl, by norm_num⟩, C2_amended_cost_accounting { cash := 10000 } [] [] 1 rfl (by norm_num)⟩

/-- `realTrunc` is the identity on integers. -/
theorem realTrunc_intCast (z : ℤ) : realTrunc (z : ℝ) = z := by
  unfold realTrunc
  split
  · exact Int.floor_intCast z
  · exact Int.ceil_intCast z

/-- `price_to_sqrt_price_x96` at price 1: `sqrt(1) * Q96 = Q96` exactly. -/
theorem price_to_sqrt_one : price_to_sqrt_price_x96 1 = Q96 := by
  unfold price_to_sqrt_price_x96
  rw [Real.sqrt_one, one_mul, Int.floor_intCast]

/-- `price_to_sqrt_price_x96` at price 4: `sqrt(4) * Q96 = 2 * Q96` exactly. -/
theorem price_to_sqrt_four : price_to_sqrt_price_x96 4 = 2 * Q96 := by
  unfold price_to_sqrt_price_x96
  rw [show (4 : ℝ) = 2 ^ 2 by norm_num, Real.sqrt_sq (by norm_num : (0 : ℝ) ≤ 2)]
  rw [show (2 : ℝ) * ((Q96 : ℤ) : ℝ) = (((2 * Q96 : ℤ)) : ℝ) by push_cast; ring]
  exact Int.floor_intCast _

/-- For a price at the upper bound of the range `[1, 4]`, the amounts are all
in token1: `amount1 = liquidity` (here `10 * Q96`). -/
theorem amounts_at_upper_bound :
    get_amounts_for_liquidity (2 * Q96) Q96 (2 * Q96) (10 * Q96) = (0, 10 * Q96) := by
  have h1 : ¬ (Q96 > 2 * Q96) := by norm_num [Q96]
  have h2 : ¬ ((2 * Q96 : ℤ) ≤ Q96) := by norm_num [Q96]
  have h4 : get_amount1_for_liquidity Q96 (2 * Q96) (10 * Q96) = 10 * Q96 := by
    simp only [get_amount1_for_liquidity, h1, if_false]
    rw [if_neg (by norm_num [Q96] : ¬((2 * Q96 - Q96 : ℤ) = 0))]
    rw [show ((10 * Q96 : ℤ) : ℚ) * (((2 * Q96 - Q96 : ℤ) : ℚ) / ((Q96 : ℤ) : ℚ)) =
        ((10 * Q96 : ℤ) : ℚ) by push_cast [Q96]; norm_num]
    exact ratTrunc_intCast _
  simp only [get_amounts_for_liquidity, h1, if_false, h2, ge_iff_le, le_refl, if_true, h4]

/-- Valuation of the range `[1, 4]` with liquidity `10 * Q96` at price 4:
all in token1, worth exactly 10 quote units. -/
theorem position_value_1_4 :
    calculate_position_value 4 1 4 (10 * ((Q96 : ℤ) : ℝ)) = (0, 10, 10) := by
  unfold calculate_position_value
  rw [price_to_sqrt_four, price_to_sqrt_one]
  rw [show (10 * ((Q96 : ℤ) : ℝ)) = (((10 * Q96 : ℤ)) : ℝ) by push_cast; ring]
  rw [realTrunc_intCast]
  simp only [amounts_at_upper_bound]
  push_cast [Q96]
  norm_num

/-- Claim C1: value is NOT conserved across a rebalance.  `rebalance_positions`
credits the liquidated positions' value to cash but never debits the principal
of the newly opened positions: rebalancing a 10000-cash portfolio into one
position worth 10 at `fee_bps = 5`, `gas_cost = 0` returns cost `1/200` while
the total value moves from 10000 to `10000 - 1/200 + 10` — a change of
`+9.995`, not `-0.005`: the value difference is not the charged cost. -/
theorem C1_code_bug_value_not_conserved :
    Portfolio.rebalancePositions { cash := 10000 } [(1, 4)] [10 * ((Q96 : ℤ) : ℝ)] 4 =
      .ok ({ cash := 10000 - 1 / 200,
             positions := [{ lowerPrice := 1, upperPrice := 4, liquidity := 10 * ((Q96 : ℤ) : ℝ) }],
             transactionHistory := [{ cost := 1 / 200, positionsCount := 1 }],
             totalFeesPaid := 1 / 200, rebalanceCount := 1 }, 1 / 200) ∧
    Portfolio.getTotalValue
      { cash := 10000 - 1 / 200,
        positions := [{ lowerPrice := 1, upperPrice := 4, liquidity := 10 * ((Q96 : ℤ) : ℝ) }],
        transactionHistory := [{ cost := 1 / 200, positionsCount := 1 }],
        totalFeesPaid := 1 / 200, rebalanceCount := 1 } 4 = 10000 - 1 / 200 + 10 ∧
    Portfolio.getTotalValue { cash := 10000 } 4 = 10000 ∧
    |(10000 - 1 / 200 + 10) - (10000 : ℝ)| ≠ 1 / 200 := by
  have hval : Position.getValue
      { lowerPrice := 1, upperPrice := 4, liquidity := 10 * ((Q96 : ℤ) : ℝ) } 4 =
      (0, 10, 10) := by
    unfold Position.getValue
    exact position_value_1_4
  refine ⟨?_, ?_, ?_, ?_⟩
  · simp only [Portfolio.rebalancePositions]
    rw [if_neg (by norm_num)]
    simp only [List.zip, List.zipWith, List.map, hval, List.sum_cons, List.sum_nil]
    norm_num
  · simp only [Portfolio.getTotalValue, List.map, hval, List.sum_cons, List.sum_nil]
    norm_num
  · simp [Portfolio.getTotalValue]
  · rw [abs_of_nonneg (by norm_num : (0 : ℝ) ≤ (10000 - 1 / 200 + 10) - 10000)]
    norm_num

/-- Witness for C10 at a concrete input: a HODL-50:50 baseline with zero cash
holding 3 base and 5 quote units, at price 2. -/
theorem C10_witness :
    (({ cash := 0, amount0 := 3, amount1 := 5 : BaselinePortfolio }.strategy = "hodl_50_50") ∧
      (0 : ℚ) < 2) ∧
    (({ cash := 0, amount0 := 3, amount1 := 5 : BaselinePortfolio }.rebalanceTo5050 2).getValue 2 =
      ({ cash := 0, amount0 := 3, amount1 := 5 : BaselinePortfolio }.getValue 2)) :=
  ⟨⟨rfl, by norm_num⟩,
    ((C10_amended_rebalance_50_50 { cash := 0, amount0 := 3, amount1 := 5 } 2).1 rfl rfl
      (by norm_num)).1⟩

end SteerBT
